import Mathlib

/-!
Verification of the Agritech mock backend (src/app.py).

The service is a single stateless Flask app returning randomly generated
JSON.  We embed each handler shallowly: floats become rationals (`ℚ`),
each call to the random module becomes an explicit parameter holding the
drawn value, `datetime.now()` becomes an explicit day-number parameter,
and every JSON payload becomes a Lean structure whose fields are the keys
of the dictionary built in the source.  Python's `round(x, n)`
(round-half-to-even) is modelled exactly on rationals.
-/

/-- Round a rational to the nearest integer, ties to even —
the rounding used by Python's built-in `round`. -/
def roundHalfEven (q : ℚ) : ℤ :=
  if q - ⌊q⌋ < 1/2 then ⌊q⌋
  else if 1/2 < q - ⌊q⌋ then ⌊q⌋ + 1
  else if ⌊q⌋ % 2 = 0 then ⌊q⌋ else ⌊q⌋ + 1

/-- Python's `round(q, n)` on rationals. -/
def pyRound (n : ℕ) (q : ℚ) : ℚ :=
  (roundHalfEven (q * 10 ^ n) : ℚ) / 10 ^ n

/-- `round(q, 2)` as used throughout src/app.py. -/
def round2 (q : ℚ) : ℚ := pyRound 2 q

/-- `round(q, 1)` as used throughout src/app.py. -/
def round1 (q : ℚ) : ℚ := pyRound 1 q

/-- src/app.py lines 19–28, `get_ndvi_color`: convert an NDVI value to
(color, status label, class tag) by a four-band strict-threshold table. -/
def get_ndvi_color (ndvi_value : ℚ) : String × String × String :=
  if ndvi_value > 0.7 then ("#00ff00", "Excellent 🌿", "excellent")
  else if ndvi_value > 0.5 then ("#aaff00", "Good ✅", "good")
  else if ndvi_value > 0.3 then ("#ffff00", "Moderate ⚠️", "moderate")
  else ("#ff0000", "Poor ❌", "poor")

/-- src/app.py lines 296–307, `get_ndvi_interpretation`: five-band
free-text interpretation of an NDVI value. -/
def get_ndvi_interpretation (ndvi : ℚ) : String :=
  if ndvi > 0.7 then
    "Very high vegetation density. Likely healthy, dense crops or forest."
  else if ndvi > 0.5 then
    "Moderate to high vegetation. Typical of healthy agricultural fields."
  else if ndvi > 0.3 then
    "Moderate vegetation. May indicate stress or sparse crop cover."
  else if ndvi > 0.1 then
    "Low vegetation. Could be bare soil, senescing crops, or urban areas."
  else
    "Very low or no vegetation. Possibly water, snow, or barren land."

/-- src/app.py lines 309–319, `get_season`: season from the month number. -/
def get_season (month : ℕ) : String :=
  if month = 12 ∨ month = 1 ∨ month = 2 then "Winter"
  else if month = 3 ∨ month = 4 ∨ month = 5 then "Spring"
  else if month = 6 ∨ month = 7 ∨ month = 8 then "Summer"
  else "Autumn"

section RoundLemmas

theorem roundHalfEven_intCast (n : ℤ) : roundHalfEven (n : ℚ) = n := by
  simp [roundHalfEven]

theorem roundHalfEven_le (q : ℚ) : (roundHalfEven q : ℚ) ≤ q + 1/2 := by
  unfold roundHalfEven
  have hfl : (⌊q⌋ : ℚ) ≤ q := Int.floor_le q
  have hfu : q < ⌊q⌋ + 1 := Int.lt_floor_add_one q
  split_ifs with h1 h2 h3 <;> push_cast <;> linarith

theorem le_roundHalfEven (q : ℚ) : q - 1/2 ≤ (roundHalfEven q : ℚ) := by
  unfold roundHalfEven
  have hfl : (⌊q⌋ : ℚ) ≤ q := Int.floor_le q
  have hfu : q < ⌊q⌋ + 1 := Int.lt_floor_add_one q
  split_ifs with h1 h2 h3 <;> push_cast <;> linarith

theorem round2_le (q : ℚ) : round2 q ≤ q + 1/200 := by
  have h := roundHalfEven_le (q * 10 ^ 2)
  unfold round2 pyRound
  rw [div_le_iff (by norm_num : (0:ℚ) < 10 ^ 2)]
  linarith

theorem le_round2 (q : ℚ) : q - 1/200 ≤ round2 q := by
  have h := le_roundHalfEven (q * 10 ^ 2)
  unfold round2 pyRound
  rw [le_div_iff (by norm_num : (0:ℚ) < 10 ^ 2)]
  linarith

/-- `round2` is the identity on rationals with at most two decimals. -/
theorem round2_of_den (k : ℤ) : round2 ((k : ℚ) / 100) = (k : ℚ) / 100 := by
  unfold round2 pyRound
  have h : ((k : ℚ) / 100) * 10 ^ 2 = (k : ℚ) := by ring
  rw [h, roundHalfEven_intCast]
  norm_num

end RoundLemmas

/-- C1: `get_ndvi_color` is a pure total function returning a
(color, status, class) triple whose class tag is "excellent" iff v > 0.7,
"good" iff 0.5 < v ≤ 0.7, "moderate" iff 0.3 < v ≤ 0.5 and "poor" iff
v ≤ 0.3; the comparisons are strict so each threshold value falls into
the lower band, and exactly one band applies to every value. -/
theorem get_ndvi_color_bands (v : ℚ) :
    ((get_ndvi_color v).2.2 = "excellent" ↔ 0.7 < v) ∧
    ((get_ndvi_color v).2.2 = "good" ↔ 0.5 < v ∧ v ≤ 0.7) ∧
    ((get_ndvi_color v).2.2 = "moderate" ↔ 0.3 < v ∧ v ≤ 0.5) ∧
    ((get_ndvi_color v).2.2 = "poor" ↔ v ≤ 0.3) := by
  unfold get_ndvi_color
  split_ifs with h1 h2 h3 <;>
    refine ⟨?_, ?_, ?_, ?_⟩ <;> simp <;> first
      | (constructor <;> intro h <;> first | exact absurd h (by decide) | tauto | linarith)
      | linarith
      | (intro h; linarith)
      | (constructor <;> linarith)

/-- C7: `get_ndvi_interpretation` is a pure total function mapping every
value into exactly one of five fixed interpretation strings via strict
thresholds 0.7, 0.5, 0.3, 0.1, with threshold values falling to the
lower band. -/
theorem get_ndvi_interpretation_bands (v : ℚ) :
    (get_ndvi_interpretation v =
        "Very high vegetation density. Likely healthy, dense crops or forest."
      ↔ 0.7 < v) ∧
    (get_ndvi_interpretation v =
        "Moderate to high vegetation. Typical of healthy agricultural fields."
      ↔ 0.5 < v ∧ v ≤ 0.7) ∧
    (get_ndvi_interpretation v =
        "Moderate vegetation. May indicate stress or sparse crop cover."
      ↔ 0.3 < v ∧ v ≤ 0.5) ∧
    (get_ndvi_interpretation v =
        "Low vegetation. Could be bare soil, senescing crops, or urban areas."
      ↔ 0.1 < v ∧ v ≤ 0.3) ∧
    (get_ndvi_interpretation v =
        "Very low or no vegetation. Possibly water, snow, or barren land."
      ↔ v ≤ 0.1) := by
  unfold get_ndvi_interpretation
  split_ifs with h1 h2 h3 h4 <;>
    refine ⟨?_, ?_, ?_, ?_, ?_⟩ <;> simp <;> first
      | (constructor <;> intro h <;> first | exact absurd h (by decide) | tauto | linarith)
      | linarith
      | (intro h; linarith)
      | (constructor <;> linarith)

/-! ## Field history (src/app.py lines 240–280) -/

/-- The activity tags drawn by `random.choice` at src/app.py line 258. -/
def activities : List String :=
  ["Irrigation", "Fertilization", "Weeding", "Monitoring", "Harvest"]

/-- The random draws consumed by one iteration of the history loop:
`random.random()` for NDVI, rainfall and temperature, and the index
chosen by `random.choice` for the activity. -/
structure HistoryDraw where
  ndviU : ℚ
  rainU : ℚ
  tempU : ℚ
  activityIdx : Fin activities.length

/-- The three-band health rule of src/app.py line 257:
`'Good' if ndvi > 0.5 else 'Moderate' if ndvi > 0.3 else 'Poor'`. -/
def healthLabel (ndvi : ℚ) : String :=
  if ndvi > 0.5 then "Good" else if ndvi > 0.3 then "Moderate" else "Poor"

/-- One history entry (the dict appended at src/app.py lines 252–259).
Dates are modelled as day numbers; the source formats them as ISO
`"%Y-%m-%d"` strings, whose lexicographic order agrees with day order. -/
structure HistoryEntry where
  date : ℤ
  ndvi : ℚ
  rainfall_mm : ℚ
  temperature_avg : ℚ
  health : String
  activity : String
deriving Inhabited, DecidableEq

/-- src/app.py lines 248–259: the entry built at loop index `i`.  Note the
health label is computed from the unrounded `ndvi` value while the `ndvi`
field stores the rounded one. -/
def mkHistoryEntry (base_date : ℤ) (i : ℕ) (d : HistoryDraw) : HistoryEntry :=
  let ndvi := 0.3 + d.ndviU * 0.5
  { date := base_date + 12 * i
  , ndvi := round2 ndvi
  , rainfall_mm := round1 (d.rainU * 20)
  , temperature_avg := round1 (22 + d.tempU * 10)
  , health := healthLabel ndvi
  , activity := activities.get d.activityIdx }

/-- src/app.py lines 245–250: the list built by the loop, with
`base_date = now - 90 days` and entry `i` dated `base_date + 12 i`. -/
def historyList (today : ℤ) (draws : ℕ → HistoryDraw) : List HistoryEntry :=
  (List.range 8).map (fun i => mkHistoryEntry (today - 90) i (draws i))

/-- src/app.py line 262: `history.sort(key=lambda x: x['date'])`. -/
def sortedHistory (today : ℤ) (draws : ℕ → HistoryDraw) : List HistoryEntry :=
  (historyList today draws).mergeSort (fun a b => decide (a.date ≤ b.date))

/-- src/app.py lines 264–268: the trend computed from the sorted list. -/
def historyTrend (h : List HistoryEntry) : String :=
  if h.length ≥ 2 then
    if (h.getLast?.getD default).ndvi > (h.head?.getD default).ndvi then
      "improving"
    else "stable"
  else "insufficient data"

/-- The JSON object returned by `/field-history`
(src/app.py lines 270–280). -/
structure FieldHistoryResponse where
  status : String
  field_id : String
  field_name : String
  total_entries : ℕ
  history : List HistoryEntry
  trend : String
  average_ndvi : ℚ
  season : String
  note : String

/-- src/app.py lines 240–280, `field_history`: the full handler.
`field_id_param` is the `field_id` query parameter, `today` the current
day number, `month` the current month. -/
def field_history (field_id_param : Option String) (today : ℤ) (month : ℕ)
    (draws : ℕ → HistoryDraw) : FieldHistoryResponse :=
  let field_id := field_id_param.getD "1"
  let h := sortedHistory today draws
  { status := "success"
  , field_id := field_id
  , field_name := "Agricultural Field #" ++ field_id
  , total_entries := h.length
  , history := h
  , trend := historyTrend h
  , average_ndvi := round2 ((h.map (·.ndvi)).sum / h.length)
  , season := get_season month
  , note := "Simulated historical data for demonstration" }

/-- The history list is built already sorted by date, so the sort leaves
it unchanged. -/
theorem sortedHistory_eq (today : ℤ) (draws : ℕ → HistoryDraw) :
    sortedHistory today draws = historyList today draws := by
  apply List.mergeSort_of_sorted
  have hr : List.range 8 = [0, 1, 2, 3, 4, 5, 6, 7] := by decide
  unfold historyList
  rw [hr]
  simp [mkHistoryEntry, List.pairwise_cons]
  omega

theorem length_historyList (today : ℤ) (draws : ℕ → HistoryDraw) :
    (historyList today draws).length = 8 := by
  simp [historyList]

theorem sortedHistory_pairwise (today : ℤ) (draws : ℕ → HistoryDraw) :
    (sortedHistory today draws).Pairwise (fun a b => a.date ≤ b.date) := by
  have h := @List.sorted_mergeSort HistoryEntry
    (fun a b : HistoryEntry => decide (a.date ≤ b.date))
    (fun a b c hab hbc => by
      simp only [decide_eq_true_eq] at *
      exact le_trans hab hbc)
    (fun a b => by
      simp only [Bool.or_eq_true, decide_eq_true_eq]
      exact le_total a.date b.date)
    (historyList today draws)
  exact h.imp (fun hab => by simpa using hab)

/-- C5: `/field-history` echoes `field_id` (default "1"), reports
`total_entries = 8`, lists the 8 entries in ascending date order, and
`average_ndvi` is the mean of the 8 entries' `ndvi` fields rounded to two
decimals. -/
theorem field_history_contract (fid : String) (today : ℤ) (month : ℕ)
    (draws : ℕ → HistoryDraw) :
    (field_history (some fid) today month draws).field_id = fid ∧
    (field_history none today month draws).field_id = "1" ∧
    (field_history (some fid) today month draws).total_entries = 8 ∧
    (field_history (some fid) today month draws).history.Pairwise
      (fun a b => a.date ≤ b.date) ∧
    (field_history (some fid) today month draws).average_ndvi =
      round2
        ((((field_history (some fid) today month draws).history.map
            (·.ndvi)).sum) / 8) := by
  have hlen : (sortedHistory today draws).length = 8 := by
    rw [sortedHistory_eq]; exact length_historyList today draws
  refine ⟨rfl, rfl, ?_, sortedHistory_pairwise today draws, ?_⟩
  · simpa [field_history] using hlen
  · simp only [field_history, hlen]
    norm_num

/-- C6: in `/field-history` the trend is "improving" exactly when the
last sorted entry's ndvi strictly exceeds the first's, "stable"
otherwise (equality included), and the "insufficient data" branch is
unreachable since there are always 8 entries. -/
theorem field_history_trend_rule (fid : Option String) (today : ℤ)
    (month : ℕ) (draws : ℕ → HistoryDraw) :
    ((field_history fid today month draws).trend = "improving" ↔
      ((field_history fid today month draws).history.getLast?.getD
          default).ndvi >
        ((field_history fid today month draws).history.head?.getD
          default).ndvi) ∧
    ((field_history fid today month draws).trend = "stable" ↔
      ¬(((field_history fid today month draws).history.getLast?.getD
          default).ndvi >
        ((field_history fid today month draws).history.head?.getD
          default).ndvi)) ∧
    (field_history fid today month draws).trend ≠ "insufficient data" := by
  have hlen : (sortedHistory today draws).length = 8 := by
    rw [sortedHistory_eq]; exact length_historyList today draws
  have hhist : (field_history fid today month draws).history =
      sortedHistory today draws := rfl
  have htrend : (field_history fid today month draws).trend =
      historyTrend (sortedHistory today draws) := rfl
  rw [hhist, htrend]
  unfold historyTrend
  rw [hlen]
  rw [if_pos (by norm_num : (8:ℕ) ≥ 2)]
  by_cases h : ((sortedHistory today draws).getLast?.getD default).ndvi >
      ((sortedHistory today draws).head?.getD default).ndvi
  · rw [if_pos h]
    exact ⟨⟨fun _ => h, fun _ => rfl⟩,
      ⟨fun hc => absurd hc (by decide), fun hc => absurd h hc⟩, by decide⟩
  · rw [if_neg h]
    exact ⟨⟨fun hc => absurd hc (by decide), fun hbig => absurd hbig h⟩,
      ⟨fun _ => h, fun _ => rfl⟩, by decide⟩

/-- A draw whose raw NDVI is 0.3 + 0.408 · 0.5 = 0.504. -/
def draw504 : HistoryDraw :=
  { ndviU := 0.408, rainU := 0, tempU := 0, activityIdx := ⟨0, by decide⟩ }

/-- C10: every history entry's health label is computed from the
unrounded NDVI draw while its `ndvi` field is the rounded draw; for the
draw with raw NDVI 0.504 the entry reports `ndvi = 0.5` with health
"Good", although the three-band rule applied to the reported 0.5 gives
"Moderate", not "Good". -/
theorem history_health_from_unrounded :
    (∀ (b : ℤ) (i : ℕ) (d : HistoryDraw),
        (mkHistoryEntry b i d).health = healthLabel (0.3 + d.ndviU * 0.5) ∧
        (mkHistoryEntry b i d).ndvi = round2 (0.3 + d.ndviU * 0.5)) ∧
    (mkHistoryEntry 0 0 draw504).ndvi = 0.5 ∧
    (mkHistoryEntry 0 0 draw504).health = "Good" ∧
    healthLabel ((mkHistoryEntry 0 0 draw504).ndvi) = "Moderate" := by
  have hndvi : (mkHistoryEntry 0 0 draw504).ndvi = 0.5 := by
    show round2 (0.3 + (0.408:ℚ) * 0.5) = 0.5
    have h1 : (0.3 + (0.408:ℚ) * 0.5) * 10 ^ 2 = 252/5 := by norm_num
    have h2 : ⌊(252/5 : ℚ)⌋ = 50 := by
      rw [Int.floor_eq_iff] <;> norm_num
    unfold round2 pyRound roundHalfEven
    rw [h1, h2]
    rw [if_pos (by push_cast; norm_num : (252:ℚ)/5 - ((50:ℤ):ℚ) < 1/2)]
    norm_num
  refine ⟨fun b i d => ⟨rfl, rfl⟩, hndvi, ?_, ?_⟩
  · show healthLabel (0.3 + (0.408:ℚ) * 0.5) = "Good"
    unfold healthLabel
    rw [if_pos (by norm_num : (0.3 + (0.408:ℚ) * 0.5) > 0.5)]
  · rw [hndvi]
    unfold healthLabel
    rw [if_neg (by norm_num : ¬((0.5:ℚ) > 0.5)),
      if_pos (by norm_num : (0.5:ℚ) > 0.3)]

/-! ## Weather (src/app.py lines 184–238) -/

/-- The wind directions drawn at src/app.py line 198. -/
def wind_directions : List String := ["N", "NE", "E", "SE", "S", "SW", "W", "NW"]

/-- The current-conditions strings drawn at src/app.py line 199. -/
def current_conditions : List String :=
  ["Sunny", "Partly Cloudy", "Clear", "Mostly Sunny"]

/-- The tomorrow-forecast conditions drawn at src/app.py line 218. -/
def tomorrow_conditions : List String := ["Partly Cloudy", "Clear"]

/-- All random draws consumed by the `/weather` handler, one field per
call of the random module, in source order. -/
structure WeatherDraws where
  curTemp : ℚ
  curHumidity : ℚ
  curPrecip : ℚ
  curWind : ℚ
  windDirIdx : Fin wind_directions.length
  curCondIdx : Fin current_conditions.length
  curPressure : ℚ
  curVisibility : ℤ
  high1 : ℤ
  low1 : ℤ
  rain1 : ℤ
  wind1 : ℤ
  high2 : ℤ
  low2 : ℤ
  cond2Idx : Fin tomorrow_conditions.length
  rain2 : ℤ
  wind2 : ℤ
  high3 : ℤ
  low3 : ℤ
  rain3 : ℤ
  wind3 : ℤ

/-- One entry of the 3-day forecast (src/app.py lines 204–230); `date` is
a day number (the source formats `now + i days` as `"%Y-%m-%d"`). -/
structure ForecastEntry where
  day : String
  date : ℤ
  high : ℤ
  low : ℤ
  condition : String
  rain_chance : String
  wind : String

/-- The `current` block of the weather response (src/app.py 193–202). -/
structure CurrentConditions where
  temperature : ℚ
  humidity : ℚ
  precipitation : ℚ
  wind_speed : ℚ
  wind_direction : String
  condition : String
  pressure : ℚ
  visibility : String

/-- The JSON object returned by `/weather` (src/app.py lines 190–238). -/
structure WeatherResponse where
  status : String
  location_lat : String
  location_lng : String
  current : CurrentConditions
  forecast : List ForecastEntry
  agricultural_advice : List String

/-- src/app.py lines 184–238, `weather`: the full handler; `lat`/`lng`
are the query parameters, `today` the current day number. -/
def weather (lat lng : Option String) (today : ℤ) (d : WeatherDraws) :
    WeatherResponse :=
  { status := "success"
  , location_lat := lat.getD "23.2599"
  , location_lng := lng.getD "77.4126"
  , current :=
    { temperature := round1 d.curTemp
    , humidity := round1 d.curHumidity
    , precipitation := round1 d.curPrecip
    , wind_speed := round1 d.curWind
    , wind_direction := wind_directions.get d.windDirIdx
    , condition := current_conditions.get d.curCondIdx
    , pressure := round1 d.curPressure
    , visibility := toString d.curVisibility ++ " km" }
  , forecast :=
    [ { day := "Today", date := today, high := d.high1, low := d.low1
      , condition := "Sunny"
      , rain_chance := toString d.rain1 ++ "%"
      , wind := toString d.wind1 ++ " km/h" }
    , { day := "Tomorrow", date := today + 1, high := d.high2, low := d.low2
      , condition := tomorrow_conditions.get d.cond2Idx
      , rain_chance := toString d.rain2 ++ "%"
      , wind := toString d.wind2 ++ " km/h" }
    , { day := "Day 3", date := today + 2, high := d.high3, low := d.low3
      , condition := "Clear"
      , rain_chance := toString d.rain3 ++ "%"
      , wind := toString d.wind3 ++ " km/h" } ]
  , agricultural_advice :=
    [ "Good conditions for field work"
    , "Ideal for irrigation activities"
    , "Monitor soil moisture levels"
    , "Favorable for fertilizer application" ] }

/-- C8: `/weather` without query parameters echoes the default
coordinate ("23.2599", "77.4126") and returns exactly 3 forecast
entries labelled "Today", "Tomorrow", "Day 3" in that order with
strictly ascending dates now, now+1, now+2. -/
theorem weather_defaults_and_forecast (today : ℤ) (d : WeatherDraws) :
    (weather none none today d).location_lat = "23.2599" ∧
    (weather none none today d).location_lng = "77.4126" ∧
    (weather none none today d).forecast.length = 3 ∧
    (weather none none today d).forecast.map (·.day) =
      ["Today", "Tomorrow", "Day 3"] ∧
    (weather none none today d).forecast.map (·.date) =
      [today, today + 1, today + 2] ∧
    ((weather none none today d).forecast.map (·.date)).Chain' (· < ·) := by
  refine ⟨rfl, rfl, rfl, rfl, rfl, ?_⟩
  show List.Chain' (· < ·) [today, today + 1, today + 2]
  simp [List.chain'_cons]
  try omega

/-! ## Field analysis (src/app.py lines 65–182) -/

/-- The crop types drawn at src/app.py lines 94–95. -/
def crop_types : List String :=
  ["Wheat", "Rice", "Corn", "Cotton", "Soybean", "Sugarcane"]

/-- The weather-impact conditions drawn at src/app.py line 165. -/
def impact_conditions : List String := ["Sunny", "Partly Cloudy", "Clear"]

/-- src/app.py lines 99–104: recommendations for the excellent band. -/
def recsExcellent : List String :=
  [ "Excellent crop health! Maintain current practices."
  , "Optimal growth conditions detected."
  , "Consider harvesting in 2-3 weeks."
  , "Monitor soil moisture for consistency." ]

/-- src/app.py lines 106–111: recommendations for the good band. -/
def recsGood : List String :=
  [ "Good vegetation health observed."
  , "Consider light fertilization in 10-14 days."
  , "Maintain current irrigation schedule."
  , "Check for early signs of pest activity." ]

/-- src/app.py lines 113–118: recommendations for the moderate band. -/
def recsModerate : List String :=
  [ "Moderate stress detected in some areas."
  , "Increase irrigation frequency by 20%."
  , "Test soil for nutrient deficiencies."
  , "Consider adding organic compost." ]

/-- src/app.py lines 120–126: recommendations for the poor band. -/
def recsPoor : List String :=
  [ "⚠️ Immediate attention required!"
  , "Severe vegetation stress detected."
  , "Increase irrigation immediately."
  , "Conduct comprehensive soil testing."
  , "Consult agricultural expert if condition persists." ]

/-- src/app.py lines 98–126: the recommendation list selected by the
four NDVI bands, with the same strict thresholds as `get_ndvi_color`. -/
def recommendationsFor (ndvi : ℚ) : List String :=
  if ndvi > 0.7 then recsExcellent
  else if ndvi > 0.5 then recsGood
  else if ndvi > 0.3 then recsModerate
  else recsPoor

/-- The parsed JSON body of `/analyze-field`: an optional `bounds`
polygon and an optional `name`.  A request whose body is `None` (or an
empty dict, which Python treats as falsy and which in this model simply
has no `bounds`) is rejected. -/
structure AnalyzeBody where
  bounds : Option (List (ℚ × ℚ))
  name : Option String

/-- All random draws consumed on the success path of `/analyze-field`,
one field per call of the random module, in source order. -/
structure AnalyzeDraws where
  nameNum : ℤ
  ndviRaw : ℚ
  cropIdx : Fin crop_types.length
  areaRaw : ℚ
  pixels : ℤ
  cloud : ℤ
  rainDays : ℤ
  temp : ℤ
  humid : ℤ
  condIdx : Fin impact_conditions.length

/-- The `field_info` block (src/app.py lines 137–143); `analysis_date`
is a day number. -/
structure FieldInfo where
  name : String
  area_acres : ℚ
  crop_type : String
  analysis_date : ℤ
  season : String

/-- The `ndvi_analysis` block (src/app.py lines 144–150).  The source
key `class` is a Lean keyword, hence the quoted field name. -/
structure NdviAnalysis where
  value : ℚ
  color : String
  status : String
  «class» : String
  interpretation : String

/-- The `statistics` block (src/app.py lines 151–159). -/
structure Statistics where
  mean_ndvi : ℚ
  min_ndvi : ℚ
  max_ndvi : ℚ
  health_score : ℚ
  pixels_analyzed : ℤ
  cloud_coverage : String
  resolution : String

/-- The `weather_impact` block (src/app.py lines 161–166). -/
structure WeatherImpact where
  last_rainfall : String
  temperature : String
  humidity : String
  condition : String

/-- The success response of `/analyze-field` (src/app.py 133–172). -/
structure AnalyzeResponse where
  status : String
  data_type : String
  note : String
  field_info : FieldInfo
  ndvi_analysis : NdviAnalysis
  statistics : Statistics
  recommendations : List String
  weather_impact : WeatherImpact
  next_steps : List String

/-- The three possible outcomes of the `/analyze-field` handler:
the OPTIONS preflight acknowledgment `{"status": "ok"}` (200), the
client error `{"status": "error", "message": ...}` (400), and the
success payload (200). -/
inductive AnalyzeResult where
  | preflight : AnalyzeResult
  | clientError (message : String) : AnalyzeResult
  | ok (resp : AnalyzeResponse) : AnalyzeResult

/-- The HTTP status code attached to each outcome
(src/app.py lines 70, 79, 175). -/
def AnalyzeResult.statusCode : AnalyzeResult → ℕ
  | .preflight => 200
  | .clientError _ => 400
  | .ok _ => 200

/-- The `status` field of the JSON body of each outcome. -/
def AnalyzeResult.statusField : AnalyzeResult → String
  | .preflight => "ok"
  | .clientError _ => "error"
  | .ok r => r.status

/-- src/app.py lines 81–172: the response assembled on the success
path, given the parsed body, the current day and month, and the draws. -/
def buildAnalyzeResponse (body : AnalyzeBody) (today : ℤ) (month : ℕ)
    (d : AnalyzeDraws) : AnalyzeResponse :=
  let field_name := body.name.getD ("Field_" ++ toString d.nameNum)
  let ndvi := round2 d.ndviRaw
  { status := "success"
  , data_type := "mock"
  , note :=
      "Using simulated data. Real satellite data requires Sentinel Hub API keys."
  , field_info :=
    { name := field_name
    , area_acres := round1 d.areaRaw
    , crop_type := crop_types.get d.cropIdx
    , analysis_date := today
    , season := get_season month }
  , ndvi_analysis :=
    { value := ndvi
    , color := (get_ndvi_color ndvi).1
    , status := (get_ndvi_color ndvi).2.1
    , «class» := (get_ndvi_color ndvi).2.2
    , interpretation := get_ndvi_interpretation ndvi }
  , statistics :=
    { mean_ndvi := ndvi
    , min_ndvi := round2 (max 0.1 (ndvi - 0.2))
    , max_ndvi := round2 (min 1.0 (ndvi + 0.15))
    , health_score := round1 (ndvi * 100)
    , pixels_analyzed := d.pixels
    , cloud_coverage := toString d.cloud ++ "%"
    , resolution := "10m" }
  , recommendations := recommendationsFor ndvi
  , weather_impact :=
    { last_rainfall := toString d.rainDays ++ " days ago"
    , temperature := toString d.temp ++ "°C"
    , humidity := toString d.humid ++ "%"
    , condition := impact_conditions.get d.condIdx }
  , next_steps :=
    [ "Re-analyze in 7 days to track progress"
    , "Compare with historical data"
    , "Share report with farm manager" ] }

/-- src/app.py lines 65–182, `analyze_field`: OPTIONS requests get the
preflight acknowledgment; a missing body or a body without `bounds`
yields the 400 client error; otherwise the success payload is built. -/
def analyze_field (method : String) (body : Option AnalyzeBody)
    (today : ℤ) (month : ℕ) (d : AnalyzeDraws) : AnalyzeResult :=
  if method = "OPTIONS" then .preflight
  else
    match body with
    | none => .clientError "No field bounds provided"
    | some b =>
      match b.bounds with
      | none => .clientError "No field bounds provided"
      | some _ => .ok (buildAnalyzeResponse b today month d)

/-- Inversion: a successful `/analyze-field` outcome comes from a present
body whose `bounds` key exists, and carries the built payload. -/
theorem analyze_field_ok_inv (method : String) (body : Option AnalyzeBody)
    (today : ℤ) (month : ℕ) (d : AnalyzeDraws) (resp : AnalyzeResponse)
    (h : analyze_field method body today month d = .ok resp) :
    ∃ b, body = some b ∧ resp = buildAnalyzeResponse b today month d := by
  unfold analyze_field at h
  by_cases hm : method = "OPTIONS"
  · rw [if_pos hm] at h
    exact AnalyzeResult.noConfusion h
  · rw [if_neg hm] at h
    cases body with
    | none =>
      exact AnalyzeResult.noConfusion h
    | some b =>
      cases hbd : b.bounds with
      | none =>
        simp only [hbd] at h
        exact AnalyzeResult.noConfusion h
      | some p =>
        simp only [hbd] at h
        injection h with h
        exact ⟨b, rfl, h.symm⟩

/-- C2: a non-OPTIONS `/analyze-field` request whose body is absent or
lacks `bounds` yields exactly the 400 client error with `status`
"error" and the "No field bounds provided" message, and never a success
payload. -/
theorem analyze_field_missing_bounds (method : String)
    (body : Option AnalyzeBody) (today : ℤ) (month : ℕ) (d : AnalyzeDraws)
    (hm : method ≠ "OPTIONS")
    (hb : body = none ∨ ∃ b, body = some b ∧ b.bounds = none) :
    analyze_field method body today month d =
      .clientError "No field bounds provided" ∧
    (analyze_field method body today month d).statusCode = 400 ∧
    (analyze_field method body today month d).statusField = "error" ∧
    ∀ resp, analyze_field method body today month d ≠ .ok resp := by
  have he : analyze_field method body today month d =
      .clientError "No field bounds provided" := by
    unfold analyze_field
    rw [if_neg hm]
    rcases hb with h | ⟨b, hb1, hb2⟩
    · rw [h]
    · subst hb1
      simp only [hb2]
  refine ⟨he, by rw [he]; rfl, by rw [he]; rfl, fun resp hc => ?_⟩
  rw [he] at hc
  exact AnalyzeResult.noConfusion hc

/-- A concrete set of draws used to instantiate the analysis theorems. -/
def exampleDraws : AnalyzeDraws :=
  { nameNum := 1234, ndviRaw := 0.5, cropIdx := ⟨0, by decide⟩
  , areaRaw := 10, pixels := 100000, cloud := 5, rainDays := 3
  , temp := 25, humid := 50, condIdx := ⟨0, by decide⟩ }

/-- A concrete body carrying the unit-square bounds polygon. -/
def exampleBody : AnalyzeBody :=
  { bounds := some [(0, 0), (0, 1), (1, 1), (1, 0)], name := none }

theorem analyze_field_missing_bounds_witness :
    ("POST" : String) ≠ "OPTIONS" ∧
    (analyze_field "POST" none 0 6 exampleDraws =
        .clientError "No field bounds provided" ∧
      (analyze_field "POST" none 0 6 exampleDraws).statusCode = 400 ∧
      (analyze_field "POST" none 0 6 exampleDraws).statusField = "error" ∧
      ∀ resp, analyze_field "POST" none 0 6 exampleDraws ≠ .ok resp) :=
  ⟨by decide,
    analyze_field_missing_bounds "POST" none 0 6 exampleDraws (by decide)
      (Or.inl rfl)⟩

/-- Numeric core of the statistics block: for a raw NDVI in
[0.25, 0.85], the rounded value stays in [0.25, 0.85] and the clamped,
rounded min/max bracket it inside [0.1, 1]. -/
theorem round2_stat_bounds (q : ℚ) (h1 : 0.25 ≤ q) (h2 : q ≤ 0.85) :
    (0.25 ≤ round2 q ∧ round2 q ≤ 0.85) ∧
    round2 (max 0.1 (round2 q - 0.2)) ≤ round2 q ∧
    round2 q ≤ round2 (min 1.0 (round2 q + 0.15)) ∧
    0.1 ≤ round2 (max 0.1 (round2 q - 0.2)) ∧
    round2 (min 1.0 (round2 q + 0.15)) ≤ 1 := by
  have h100 : ((10 : ℚ) ^ 2) = 100 := by norm_num
  have hn : round2 q = ((roundHalfEven (q * 10 ^ 2) : ℤ) : ℚ) / 100 := by
    unfold round2 pyRound
    rw [h100]
  set k := roundHalfEven (q * 10 ^ 2) with hkdef
  have hb1 : (q * 10 ^ 2) - 1/2 ≤ (k : ℚ) := le_roundHalfEven _
  have hb2 : (k : ℚ) ≤ (q * 10 ^ 2) + 1/2 := roundHalfEven_le _
  rw [h100] at hb1 hb2
  have hq100a : (25 : ℚ) ≤ q * 100 := by linarith
  have hq100b : q * 100 ≤ 85 := by linarith
  have hk25 : 25 ≤ k := by
    have hc : (49 : ℚ) ≤ 2 * (k : ℚ) := by linarith
    have hc2 : (49 : ℤ) ≤ 2 * k := by exact_mod_cast hc
    omega
  have hk85 : k ≤ 85 := by
    have hc : 2 * (k : ℚ) ≤ 171 := by linarith
    have hc2 : 2 * k ≤ (171 : ℤ) := by exact_mod_cast hc
    omega
  have hkc1 : (25 : ℚ) ≤ (k : ℚ) := by exact_mod_cast hk25
  have hkc2 : (k : ℚ) ≤ 85 := by exact_mod_cast hk85
  have hmin_cast : max (0.1 : ℚ) ((k : ℚ)/100 - 0.2) =
      ((max 10 (k - 20) : ℤ) : ℚ) / 100 := by
    rcases le_total (10 : ℤ) (k - 20) with h | h
    · have hc : (10 : ℚ) ≤ (k : ℚ) - 20 := by exact_mod_cast h
      rw [max_eq_right h, max_eq_right (by push_cast; linarith)]
      push_cast
      ring
    · have hc : (k : ℚ) - 20 ≤ 10 := by exact_mod_cast h
      rw [max_eq_left h, max_eq_left (by push_cast; linarith)]
      norm_num
  have hmax_cast : min (1.0 : ℚ) ((k : ℚ)/100 + 0.15) =
      ((min 100 (k + 15) : ℤ) : ℚ) / 100 := by
    rcases le_total (100 : ℤ) (k + 15) with h | h
    · have hc : (100 : ℚ) ≤ (k : ℚ) + 15 := by exact_mod_cast h
      rw [min_eq_left h, min_eq_left (by push_cast; linarith)]
      norm_num
    · have hc : (k : ℚ) + 15 ≤ 100 := by exact_mod_cast h
      rw [min_eq_right h, min_eq_right (by push_cast; linarith)]
      push_cast
      ring
  rw [hn, hmin_cast, hmax_cast, round2_of_den, round2_of_den]
  have hminle : ((max 10 (k - 20) : ℤ) : ℚ) ≤ (k : ℚ) := by
    exact_mod_cast (by omega : max 10 (k - 20) ≤ k)
  have hminge : (10 : ℚ) ≤ ((max 10 (k - 20) : ℤ) : ℚ) := by
    exact_mod_cast (by omega : (10 : ℤ) ≤ max 10 (k - 20))
  have hmaxge : (k : ℚ) ≤ ((min 100 (k + 15) : ℤ) : ℚ) := by
    exact_mod_cast (by omega : k ≤ min 100 (k + 15))
  have hmaxle : ((min 100 (k + 15) : ℤ) : ℚ) ≤ 100 := by
    exact_mod_cast (by omega : min 100 (k + 15) ≤ (100 : ℤ))
  refine ⟨⟨by linarith, by linarith⟩,
    by linarith, by linarith, by linarith, by linarith⟩

/-- C3: in every successful `/analyze-field` response the NDVI value
lies in [0.25, 0.85], the statistics' min/max (the value minus 0.2 and
plus 0.15, clamped to [0.1, 1] and rounded to two decimals) bracket the
value, the min is at least 0.1 and the max at most 1. -/
theorem analyze_field_statistics_bounds (method : String)
    (body : Option AnalyzeBody) (today : ℤ) (month : ℕ) (d : AnalyzeDraws)
    (resp : AnalyzeResponse)
    (h : analyze_field method body today month d = .ok resp)
    (h1 : 0.25 ≤ d.ndviRaw) (h2 : d.ndviRaw ≤ 0.85) :
    (0.25 ≤ resp.ndvi_analysis.value ∧ resp.ndvi_analysis.value ≤ 0.85) ∧
    resp.statistics.min_ndvi ≤ resp.ndvi_analysis.value ∧
    resp.ndvi_analysis.value ≤ resp.statistics.max_ndvi ∧
    0.1 ≤ resp.statistics.min_ndvi ∧
    resp.statistics.max_ndvi ≤ 1 ∧
    resp.statistics.min_ndvi =
      round2 (max 0.1 (resp.ndvi_analysis.value - 0.2)) ∧
    resp.statistics.max_ndvi =
      round2 (min 1.0 (resp.ndvi_analysis.value + 0.15)) := by
  obtain ⟨b, hbody, hresp⟩ :=
    analyze_field_ok_inv method body today month d resp h
  subst hresp
  have hval : (buildAnalyzeResponse b today month d).ndvi_analysis.value =
      round2 d.ndviRaw := rfl
  have hmin : (buildAnalyzeResponse b today month d).statistics.min_ndvi =
      round2 (max 0.1 (round2 d.ndviRaw - 0.2)) := rfl
  have hmax : (buildAnalyzeResponse b today month d).statistics.max_ndvi =
      round2 (min 1.0 (round2 d.ndviRaw + 0.15)) := rfl
  rw [hval, hmin, hmax]
  have key := round2_stat_bounds d.ndviRaw h1 h2
  exact ⟨key.1, key.2.1, key.2.2.1, key.2.2.2.1, key.2.2.2.2, rfl, rfl⟩

theorem analyze_field_statistics_bounds_witness :
    (analyze_field "POST" (some exampleBody) 0 6 exampleDraws =
      .ok (buildAnalyzeResponse exampleBody 0 6 exampleDraws)) ∧
    0.25 ≤ exampleDraws.ndviRaw ∧ exampleDraws.ndviRaw ≤ 0.85 ∧
    ((0.25 ≤ (buildAnalyzeResponse exampleBody 0 6
          exampleDraws).ndvi_analysis.value ∧
      (buildAnalyzeResponse exampleBody 0 6
          exampleDraws).ndvi_analysis.value ≤ 0.85) ∧
     (buildAnalyzeResponse exampleBody 0 6 exampleDraws).statistics.min_ndvi ≤
       (buildAnalyzeResponse exampleBody 0 6
          exampleDraws).ndvi_analysis.value ∧
     (buildAnalyzeResponse exampleBody 0 6
          exampleDraws).ndvi_analysis.value ≤
       (buildAnalyzeResponse exampleBody 0 6
          exampleDraws).statistics.max_ndvi ∧
     0.1 ≤ (buildAnalyzeResponse exampleBody 0 6
          exampleDraws).statistics.min_ndvi ∧
     (buildAnalyzeResponse exampleBody 0 6
          exampleDraws).statistics.max_ndvi ≤ 1 ∧
     (buildAnalyzeResponse exampleBody 0 6
          exampleDraws).statistics.min_ndvi =
       round2 (max 0.1 ((buildAnalyzeResponse exampleBody 0 6
          exampleDraws).ndvi_analysis.value - 0.2)) ∧
     (buildAnalyzeResponse exampleBody 0 6
          exampleDraws).statistics.max_ndvi =
       round2 (min 1.0 ((buildAnalyzeResponse exampleBody 0 6
          exampleDraws).ndvi_analysis.value + 0.15))) := by
  have hok : analyze_field "POST" (some exampleBody) 0 6 exampleDraws =
      .ok (buildAnalyzeResponse exampleBody 0 6 exampleDraws) := by
    unfold analyze_field
    rw [if_neg (by decide : ¬("POST" : String) = "OPTIONS")]
    rfl
  have hr1 : (0.25 : ℚ) ≤ exampleDraws.ndviRaw := by
    show (0.25 : ℚ) ≤ 0.5
    norm_num
  have hr2 : exampleDraws.ndviRaw ≤ 0.85 := by
    show (0.5 : ℚ) ≤ 0.85
    norm_num
  exact ⟨hok, hr1, hr2,
    analyze_field_statistics_bounds "POST" (some exampleBody) 0 6
      exampleDraws (buildAnalyzeResponse exampleBody 0 6 exampleDraws)
      hok hr1 hr2⟩

/-- C9: every successful `/analyze-field` response carries one of the
four fixed recommendation lists, and always the list keyed (by the same
strict 0.7/0.5/0.3 thresholds) to the band reported in
`ndvi_analysis.class`. -/
theorem analyze_field_recommendations_class (method : String)
    (body : Option AnalyzeBody) (today : ℤ) (month : ℕ) (d : AnalyzeDraws)
    (resp : AnalyzeResponse)
    (h : analyze_field method body today month d = .ok resp) :
    resp.recommendations =
      (if resp.ndvi_analysis.«class» = "excellent" then recsExcellent
       else if resp.ndvi_analysis.«class» = "good" then recsGood
       else if resp.ndvi_analysis.«class» = "moderate" then recsModerate
       else recsPoor) ∧
    (resp.recommendations = recsExcellent ∨
     resp.recommendations = recsGood ∨
     resp.recommendations = recsModerate ∨
     resp.recommendations = recsPoor) := by
  obtain ⟨b, hbody, hresp⟩ :=
    analyze_field_ok_inv method body today month d resp h
  subst hresp
  have hcls : (buildAnalyzeResponse b today month d).ndvi_analysis.«class» =
      (get_ndvi_color (round2 d.ndviRaw)).2.2 := rfl
  have hrec : (buildAnalyzeResponse b today month d).recommendations =
      recommendationsFor (round2 d.ndviRaw) := rfl
  rw [hcls, hrec]
  unfold recommendationsFor
  by_cases h1 : round2 d.ndviRaw > 0.7
  · have hcl : (get_ndvi_color (round2 d.ndviRaw)).2.2 = "excellent" := by
      unfold get_ndvi_color
      rw [if_pos h1]
    rw [hcl, if_pos h1, if_pos rfl]
    exact ⟨rfl, Or.inl rfl⟩
  · by_cases h2 : round2 d.ndviRaw > 0.5
    · have hcl : (get_ndvi_color (round2 d.ndviRaw)).2.2 = "good" := by
        unfold get_ndvi_color
        rw [if_neg h1, if_pos h2]
      rw [hcl, if_neg h1, if_pos h2,
        if_neg (by decide : ¬("good" : String) = "excellent"), if_pos rfl]
      exact ⟨rfl, Or.inr (Or.inl rfl)⟩
    · by_cases h3 : round2 d.ndviRaw > 0.3
      · have hcl : (get_ndvi_color (round2 d.ndviRaw)).2.2 = "moderate" := by
          unfold get_ndvi_color
          rw [if_neg h1, if_neg h2, if_pos h3]
        rw [hcl, if_neg h1, if_neg h2, if_pos h3,
          if_neg (by decide : ¬("moderate" : String) = "excellent"),
          if_neg (by decide : ¬("moderate" : String) = "good"), if_pos rfl]
        exact ⟨rfl, Or.inr (Or.inr (Or.inl rfl))⟩
      · have hcl : (get_ndvi_color (round2 d.ndviRaw)).2.2 = "poor" := by
          unfold get_ndvi_color
          rw [if_neg h1, if_neg h2, if_neg h3]
        rw [hcl, if_neg h1, if_neg h2, if_neg h3,
          if_neg (by decide : ¬("poor" : String) = "excellent"),
          if_neg (by decide : ¬("poor" : String) = "good"),
          if_neg (by decide : ¬("poor" : String) = "moderate")]
        exact ⟨rfl, Or.inr (Or.inr (Or.inr rfl))⟩

theorem analyze_field_recommendations_class_witness :
    (analyze_field "POST" (some exampleBody) 0 6 exampleDraws =
      .ok (buildAnalyzeResponse exampleBody 0 6 exampleDraws)) ∧
    ((buildAnalyzeResponse exampleBody 0 6 exampleDraws).recommendations =
      (if (buildAnalyzeResponse exampleBody 0 6
            exampleDraws).ndvi_analysis.«class» = "excellent" then
          recsExcellent
       else if (buildAnalyzeResponse exampleBody 0 6
            exampleDraws).ndvi_analysis.«class» = "good" then recsGood
       else if (buildAnalyzeResponse exampleBody 0 6
            exampleDraws).ndvi_analysis.«class» = "moderate" then
          recsModerate
       else recsPoor) ∧
     ((buildAnalyzeResponse exampleBody 0 6 exampleDraws).recommendations =
        recsExcellent ∨
      (buildAnalyzeResponse exampleBody 0 6 exampleDraws).recommendations =
        recsGood ∨
      (buildAnalyzeResponse exampleBody 0 6 exampleDraws).recommendations =
        recsModerate ∨
      (buildAnalyzeResponse exampleBody 0 6 exampleDraws).recommendations =
        recsPoor)) := by
  have hok : analyze_field "POST" (some exampleBody) 0 6 exampleDraws =
      .ok (buildAnalyzeResponse exampleBody 0 6 exampleDraws) := by
    unfold analyze_field
    rw [if_neg (by decide : ¬("POST" : String) = "OPTIONS")]
    rfl
  exact ⟨hok,
    analyze_field_recommendations_class "POST" (some exampleBody) 0 6
      exampleDraws (buildAnalyzeResponse exampleBody 0 6 exampleDraws) hok⟩

/-! ## Static and informational handlers, error handlers, and the
status-field invariant (src/app.py lines 34–63, 282–291, 324–345) -/

/-- The JSON object returned by `/` (src/app.py lines 34–51); `time` is
a day number and the endpoint directory is a list of key/value pairs. -/
structure HomeResponse where
  status : String
  message : String
  time : ℤ
  mode : String
  note : String
  endpoints : List (String × String)

/-- src/app.py lines 34–51, `home`. -/
def home (today : ℤ) : HomeResponse :=
  { status := "success"
  , message := "✅ EOSDA Backend is running in MOCK MODE"
  , time := today
  , mode := "mock_data"
  , note := "Using simulated data. Perfect for testing!"
  , endpoints :=
    [ ("GET /", "This info page")
    , ("GET /test-satellite", "Test connection")
    , ("POST /analyze-field", "Analyze field (main function)")
    , ("GET /weather", "Get weather data")
    , ("GET /field-history", "Get field history")
    , ("GET /health", "Health check") ] }

/-- The JSON object returned by `/test-satellite`
(src/app.py lines 53–63). -/
structure TestSatelliteResponse where
  status : String
  message : String
  mode : String
  note : String
  timestamp : ℤ
  next_step : String

/-- src/app.py lines 53–63, `test_satellite`. -/
def test_satellite (today : ℤ) : TestSatelliteResponse :=
  { status := "success"
  , message := "✅ Backend connected successfully!"
  , mode := "mock_mode"
  , note := "Using simulated satellite data - perfect for testing"
  , timestamp := today
  , next_step := "Draw a field and click 'Analyze with Satellite'" }

/-- The JSON object returned by `/health` (src/app.py lines 282–291). -/
structure HealthResponse where
  status : String
  service : String
  timestamp : ℤ
  version : String
  uptime : String

/-- src/app.py lines 282–291, `health_check`. -/
def health_check (today : ℤ) : HealthResponse :=
  { status := "healthy"
  , service := "eosda-backend-mock"
  , timestamp := today
  , version := "1.0.0"
  , uptime := "Active" }

/-- The 404 payload (src/app.py lines 324–337). -/
structure NotFoundResponse where
  status : String
  message : String
  available_endpoints : List String

/-- src/app.py lines 324–337, `not_found`. -/
def not_found : NotFoundResponse :=
  { status := "error"
  , message := "Endpoint not found"
  , available_endpoints :=
    [ "GET /", "GET /test-satellite", "POST /analyze-field"
    , "GET /weather", "GET /field-history", "GET /health" ] }

/-- The 500 payload (src/app.py lines 339–345). -/
structure ServerErrorResponse where
  status : String
  message : String
  detail : String

/-- src/app.py lines 339–345, `server_error`: detail is the fault text
when the debug flag is set, otherwise a generic string. -/
def server_error (debug : Bool) (fault : String) : ServerErrorResponse :=
  { status := "error"
  , message := "Internal server error"
  , detail := if debug then fault else "Contact administrator" }

/-- One incoming request to any route of the service, carrying the
inputs and random draws its handler consumes. -/
inductive Request where
  | home : Request
  | testSatellite : Request
  | analyzeField (method : String) (body : Option AnalyzeBody)
      (d : AnalyzeDraws) : Request
  | weatherReq (lat lng : Option String) (d : WeatherDraws) : Request
  | fieldHistoryReq (fid : Option String)
      (draws : ℕ → HistoryDraw) : Request
  | healthReq : Request
  | unknownPath : Request
  | internalFault (debug : Bool) (fault : String) : Request

/-- The `status` field of the JSON body each request is answered with. -/
def servedStatus (today : ℤ) (month : ℕ) : Request → String
  | .home => (home today).status
  | .testSatellite => (test_satellite today).status
  | .analyzeField m ob d => (analyze_field m ob today month d).statusField
  | .weatherReq lat lng d => (weather lat lng today d).status
  | .fieldHistoryReq fid draws => (field_history fid today month draws).status
  | .healthReq => (health_check today).status
  | .unknownPath => not_found.status
  | .internalFault dbg f => (server_error dbg f).status

/-- C4 counterexample: the `/health` response's status field is
"healthy", which is neither "success" nor "error". -/
theorem health_status_not_success_or_error :
    servedStatus 0 1 .healthReq = "healthy" ∧
    ¬(servedStatus 0 1 .healthReq = "success" ∨
      servedStatus 0 1 .healthReq = "error") :=
  ⟨rfl, by decide⟩

/-- C4 (amended): every JSON response's status field is "success" or
"error", except the `/health` response whose status is "healthy" and
the OPTIONS preflight on `/analyze-field` whose status is "ok". -/
theorem response_status_values (today : ℤ) (month : ℕ) (req : Request) :
    servedStatus today month req = "success" ∨
    servedStatus today month req = "error" ∨
    (req = .healthReq ∧ servedStatus today month req = "healthy") ∨
    ((∃ ob d, req = .analyzeField "OPTIONS" ob d) ∧
      servedStatus today month req = "ok") := by
  cases req with
  | home => exact Or.inl rfl
  | testSatellite => exact Or.inl rfl
  | analyzeField m ob d =>
    by_cases hm : m = "OPTIONS"
    · subst hm
      exact Or.inr (Or.inr (Or.inr ⟨⟨ob, d, rfl⟩, rfl⟩))
    · cases ob with
      | none =>
        refine Or.inr (Or.inl ?_)
        show (analyze_field m none today month d).statusField = "error"
        unfold analyze_field
        rw [if_neg hm]
        rfl
      | some b =>
        cases hbd : b.bounds with
        | none =>
          refine Or.inr (Or.inl ?_)
          show (analyze_field m (some b) today month d).statusField = "error"
          unfold analyze_field
          rw [if_neg hm]
          simp only [hbd]
          rfl
        | some p =>
          refine Or.inl ?_
          show (analyze_field m (some b) today month d).statusField =
            "success"
          unfold analyze_field
          rw [if_neg hm]
          simp only [hbd]
          rfl
  | weatherReq lat lng d => exact Or.inl rfl
  | fieldHistoryReq fid draws => exact Or.inl rfl
  | healthReq => exact Or.inr (Or.inr (Or.inl ⟨rfl, rfl⟩))
  | unknownPath => exact Or.inr (Or.inl rfl)
  | internalFault dbg f => exact Or.inr (Or.inl rfl)
